import Mathlib

/-
Verification of the `pdqa` data-quality inspection library against its
specification.  The Python source is shallowly embedded:

* a pandas `DataFrame` becomes a structure with a list of column names and a
  list of rows (each row a list of cells); a cell is `Option String`, where
  `none` models a null/NaN entry and `some s` a value whose stringified form
  (`astype(str)`) is `s`;
* the external collaborators that the spec excludes (the regex engine, the
  random row sampler of pandas, the numpy isclose closeness test) are passed in as opaque
  function parameters;
* logging and sample persistence are modelled as a list of emitted events,
  returned alongside the verdict;
* a Python function that can raise returns `Except String _`; a Python
  function whose body can fall off the end without `return` yields
  `Option Bool` as verdict, `none` modelling the Python value `None`.
-/

/-- Events observable from a check run: messages sent to the logging sink
(`info`/`warning`/`error`), messages printed to standard output when the sink
is absent, and the invocation of `write_sample` on the fail sampler, recorded
as the `save_filename` passed together with the boolean row mask sampled. -/
inductive Event where
  | info (msg : String)
  | warning (msg : String)
  | error (msg : String)
  | printed (msg : String)
  | sampled (filename : String) (mask : List Bool)
deriving DecidableEq, Repr

/-- Python truthiness-based default: `x or default` for an optional string:
`None` and the empty string are falsy and select the default. -/
def pyOr (x : Option String) (dflt : String) : String :=
  match x with
  | none => dflt
  | some s => if s = "" then dflt else s

/-- Python repr of a list of strings, as str.format renders it: elements
quoted with single-quote characters (written here as the escape 0027),
separated by a comma and a space, surrounded by square brackets. -/
def pyListRepr (l : List String) : String :=
  "[" ++ String.intercalate ", " (l.map (fun s => "\u0027" ++ s ++ "\u0027")) ++ "]"

/-- Python str.format of an optional column list (`cols` may be `None`,
which formats as the literal text `None`). -/
def optColsRepr (cols : Option (List String)) : String :=
  match cols with
  | none => "None"
  | some l => pyListRepr l

/-- Python `filter(None, strings)` over a list of optional strings: drops the
falsy entries, i.e. both `None` and the empty string. -/
def pyFilterTruthy : List (Option String) → List String
  | [] => []
  | none :: rest => pyFilterTruthy rest
  | some s :: rest => if s = "" then pyFilterTruthy rest else s :: pyFilterTruthy rest

/-- Embedding of `make_log_msg` (src/logging/__init__.py): collect
`[title, status, detail, extra]`, filter the truthy ones, join with `sep`. -/
def make_log_msg (title status detail extra : Option String) (sep : String) : String :=
  String.intercalate sep (pyFilterTruthy [title, status, detail, extra])

/-- Logging-sink emission at info level: `logger.info(msg) if logger else print(msg)`. -/
def emitInfo (logger : Bool) (msg : String) : Event :=
  if logger then Event.info msg else Event.printed msg

/-- Logging-sink emission at warning level: `logger.warning(msg) if logger else print(msg)`. -/
def emitWarn (logger : Bool) (msg : String) : Event :=
  if logger then Event.warning msg else Event.printed msg

/-- Logging-sink emission at error level: `logger.error(msg) if logger else print(msg)`. -/
def emitErr (logger : Bool) (msg : String) : Event :=
  if logger then Event.error msg else Event.printed msg

/-- Tabular data: ordered named columns and rows addressable by position.
`rows` is row-major; cell `i` of a row belongs to column `cols[i]`. -/
structure DataFrame where
  cols : List String
  rows : List (List (Option String))
deriving DecidableEq, Repr

/-- Stringified cell value, as `astype(str)` produces it: a null cell of a
numeric column stringifies to `nan`; a present cell to its string form. -/
def cellStr (c : Option String) : String :=
  match c with
  | none => "nan"
  | some s => s

/-- Column selection `df[col]`: the cells of the named column, or a
`KeyError` when the column is absent from the frame. -/
def DataFrame.getCol (df : DataFrame) (col : String) : Except String (List (Option String)) :=
  match df.cols.findIdx? (fun c => c == col) with
  | none => Except.error ("KeyError: " ++ col)
  | some i => Except.ok (df.rows.map (fun r => r.getD i none))

/-- Positions of the named columns inside `df.cols`; `KeyError` on the first
absent one (multi-column selection `df[cols]`). -/
def DataFrame.colIdxs (df : DataFrame) : List String → Except String (List Nat)
  | [] => Except.ok []
  | c :: cs =>
    match df.cols.findIdx? (fun x => x == c) with
    | none => Except.error ("KeyError: " ++ c)
    | some i =>
      match df.colIdxs cs with
      | Except.error e => Except.error e
      | Except.ok is => Except.ok (i :: is)

/-- Boolean-mask row selection `df[mask]`: keep the entries whose mask bit is
true, in original order. -/
def maskFilter {α : Type} : List α → List Bool → List α
  | x :: xs, b :: bs => if b then x :: maskFilter xs bs else maskFilter xs bs
  | _, _ => []

/-- Spec-side reading of one optional field of the log message: an absent
(null or empty) field contributes nothing, a present field contributes
itself. -/
def presentField (x : Option String) : List String :=
  match x with
  | none => []
  | some s => if s = "" then [] else [s]

theorem pyFilterTruthy_eq_flatMap (l : List (Option String)) :
    pyFilterTruthy l = l.flatMap presentField := by
  induction l with
  | nil => rfl
  | cons x rest ih =>
    cases x with
    | none => simpa [pyFilterTruthy, presentField] using ih
    | some s =>
      by_cases hs : s = "" <;> simp [pyFilterTruthy, presentField, hs, ih]

/-- C9: `make_log_msg` joins exactly the non-absent fields, in the order
title, status, detail, extra, with the given separator; a null field and an
empty field are both skipped entirely, so in particular no `None` text is ever
rendered for an absent field (second conjunct: passing `none` is
indistinguishable from passing the empty string). -/
theorem C9_make_log_msg_joins_present_fields
    (title status detail extra : Option String) (sep : String) :
    make_log_msg title status detail extra sep =
      String.intercalate sep
        (presentField title ++ presentField status ++ presentField detail ++ presentField extra)
    ∧ make_log_msg title status none none sep =
        make_log_msg title status (some "") (some "") sep := by
  constructor
  · unfold make_log_msg
    rw [pyFilterTruthy_eq_flatMap]
    simp [List.flatMap]
  · unfold make_log_msg
    rw [pyFilterTruthy_eq_flatMap, pyFilterTruthy_eq_flatMap]
    simp [List.flatMap, presentField]

/-- ASCII lowercasing of one character, modelling what str.lower does on the
method names this library accepts (all ASCII). -/
def pyLowerChar (c : Char) : Char :=
  if 65 ≤ c.toNat ∧ c.toNat ≤ 90 then Char.ofNat (c.toNat + 32) else c

/-- ASCII lowercasing of a string, modelling str.lower. -/
def pyLower (s : String) : String :=
  ⟨s.data.map pyLowerChar⟩

/-- Embedding of the `FailSampler` object state (src/__init__.py): the
sampling policy fields set by the constructor. -/
structure FailSampler where
  save_dir : String
  save_filename : Option String
  sample_method : String
  sample_size : Option Nat
  random_state : Option Nat
deriving DecidableEq, Repr

/-- Embedding of `FailSampler.__init__`: lowercase the method, raise
`ValueError` unless it is one of random, head, tail, otherwise store the
policy fields (the stored method is the lowercased one). -/
def FailSampler.init (save_dir : String) (save_filename : Option String)
    (sample_method : String) (sample_size : Option Nat) (random_state : Option Nat) :
    Except String FailSampler :=
  let m := pyLower sample_method
  if (["random", "head", "tail"] : List String).contains m then
    Except.ok
      { save_dir := save_dir, save_filename := save_filename,
        sample_method := m, sample_size := sample_size, random_state := random_state }
  else
    Except.error "ValueError: sample_method must be one of random, head, or tail"

/-- Embedding of `FailSampler.take_sample`: select the rows flagged by
`fails_index`, then return them all when the size is unset or zero, else
dispatch on the stored method.  The pandas `DataFrame.sample` collaborator is
passed in as the opaque `randomSample` function (it receives the masked rows,
the sample size and the stored random state); `tail`/`head` are the pandas
row-order-preserving last-n/first-n selections. -/
def FailSampler.take_sample {α : Type} (s : FailSampler)
    (randomSample : List α → Nat → Option Nat → List α)
    (df : List α) (fails_index : List Bool) : List α :=
  let fails := maskFilter df fails_index
  match s.sample_size with
  | none => fails
  | some 0 => fails
  | some (n + 1) =>
    if s.sample_method = "random" then randomSample fails (n + 1) s.random_state
    else if s.sample_method = "tail" then fails.drop (fails.length - (n + 1))
    else fails.take (n + 1)

/-- Spec-side description of the masked subset: all rows where the mask is
true, in original row order, written independently of `maskFilter`. -/
def specMaskedRows {α : Type} (df : List α) (mask : List Bool) : List α :=
  ((df.zip mask).filter (fun p => p.2)).map Prod.fst

theorem maskFilter_eq_specMaskedRows {α : Type} (df : List α) (mask : List Bool) :
    maskFilter df mask = specMaskedRows df mask := by
  induction df generalizing mask with
  | nil => cases mask <;> rfl
  | cons x xs ih =>
    cases mask with
    | nil => rfl
    | cons b bs =>
      have h := ih bs
      unfold specMaskedRows at h ⊢
      cases b <;> simp [maskFilter, List.zip, List.filter] <;>
        simpa [List.zip] using h

/-- C5: `take_sample` returns the whole masked subset whenever the sample size
is unset or zero, whatever the method; with size `n > 0` and method head it
returns the first `n` rows of the masked subset in original order (pinned down
as: the result followed by the remaining rows is the masked subset, and its
length is `min n` the subset length); with method tail it returns the last `n`
rows in original order (the earlier rows followed by the result is the masked
subset, same length law). -/
theorem C5_take_sample_policy {α : Type} (s : FailSampler)
    (randomSample : List α → Nat → Option Nat → List α) (df : List α) (mask : List Bool) :
    ((s.sample_size = none ∨ s.sample_size = some 0) →
      s.take_sample randomSample df mask = specMaskedRows df mask)
    ∧ (∀ n : Nat, s.sample_size = some n → 0 < n → s.sample_method = "head" →
        s.take_sample randomSample df mask ++ (specMaskedRows df mask).drop n
            = specMaskedRows df mask
        ∧ (s.take_sample randomSample df mask).length = min n (specMaskedRows df mask).length)
    ∧ (∀ n : Nat, s.sample_size = some n → 0 < n → s.sample_method = "tail" →
        (specMaskedRows df mask).take ((specMaskedRows df mask).length - n)
            ++ s.take_sample randomSample df mask = specMaskedRows df mask
        ∧ (s.take_sample randomSample df mask).length = min n (specMaskedRows df mask).length) := by
  refine ⟨?_, ?_, ?_⟩
  · intro h
    rcases h with h | h <;>
      simp [FailSampler.take_sample, h, maskFilter_eq_specMaskedRows]
  · intro n hsz hn hm
    obtain ⟨m, rfl⟩ : ∃ m, n = m + 1 := ⟨n - 1, by omega⟩
    rw [show s.take_sample randomSample df mask = (specMaskedRows df mask).take (m + 1) by
      simp [FailSampler.take_sample, hsz, hm, maskFilter_eq_specMaskedRows]]
    exact ⟨List.take_append_drop _ _, by simp⟩
  · intro n hsz hn hm
    obtain ⟨m, rfl⟩ : ∃ m, n = m + 1 := ⟨n - 1, by omega⟩
    rw [show s.take_sample randomSample df mask
          = (specMaskedRows df mask).drop ((specMaskedRows df mask).length - (m + 1)) by
      simp [FailSampler.take_sample, hsz, hm, maskFilter_eq_specMaskedRows]]
    refine ⟨List.take_append_drop _ _, ?_⟩
    simp only [List.length_drop]
    omega

/-- C5 witness: the three conjuncts instantiated at concrete samplers and a
concrete frame. -/
theorem C5_take_sample_policy_witness :
    (FailSampler.take_sample
        { save_dir := "", save_filename := none, sample_method := "random",
          sample_size := none, random_state := none }
        (fun l _ _ => l) ([1, 2, 3] : List Nat) [true, false, true]
      = specMaskedRows [1, 2, 3] [true, false, true])
    ∧ (FailSampler.take_sample
          { save_dir := "", save_filename := none, sample_method := "head",
            sample_size := some 2, random_state := none }
          (fun l _ _ => l) ([1, 2, 3, 4] : List Nat) [true, true, true, false]
          ++ (specMaskedRows [1, 2, 3, 4] [true, true, true, false]).drop 2
        = specMaskedRows [1, 2, 3, 4] [true, true, true, false])
    ∧ ((specMaskedRows [1, 2, 3, 4] [true, true, true, false]).take
          ((specMaskedRows [1, 2, 3, 4] [true, true, true, false]).length - 2)
          ++ FailSampler.take_sample
            { save_dir := "", save_filename := none, sample_method := "tail",
              sample_size := some 2, random_state := none }
            (fun l _ _ => l) ([1, 2, 3, 4] : List Nat) [true, true, true, false]
        = specMaskedRows [1, 2, 3, 4] [true, true, true, false]) :=
  ⟨(C5_take_sample_policy _ _ _ _).1 (Or.inl rfl),
   ((C5_take_sample_policy _ _ _ _).2.1 2 rfl (by decide) rfl).1,
   ((C5_take_sample_policy _ _ _ _).2.2 2 rfl (by decide) rfl).1⟩

/-- C6: constructing a `FailSampler` succeeds exactly when the lowercased
method is one of random, head, tail (so the check is case-insensitive), and
the validation lives only in the constructor: `take_sample` performs no check
of its own — it is total in this embedding, and any stored method string
other than random or tail (valid or not) silently takes the head branch,
mirroring the absence of any method check in the source of `take_sample`. -/
theorem C6_init_validates_method (save_dir : String) (save_filename : Option String)
    (m : String) (size rs : Option Nat) :
    ((∃ s, FailSampler.init save_dir save_filename m size rs = Except.ok s) ↔
        pyLower m ∈ (["random", "head", "tail"] : List String))
    ∧ (∀ {α : Type} (s : FailSampler) (rp : List α → Nat → Option Nat → List α)
          (df : List α) (mask : List Bool) (n : Nat),
        s.sample_size = some (n + 1) → s.sample_method ≠ "random" → s.sample_method ≠ "tail" →
        s.take_sample rp df mask = (maskFilter df mask).take (n + 1)) := by
  constructor
  · by_cases h : pyLower m ∈ (["random", "head", "tail"] : List String) <;>
      simp [FailSampler.init, h, List.elem_iff]
  · intro α s rp df mask n hsz hr ht
    simp [FailSampler.take_sample, hsz, hr, ht]

/-- C6 witness: an uppercase method is accepted, an unknown one is rejected,
and a sampler whose stored method is unknown still samples (head behaviour)
with no call-time validation. -/
theorem C6_init_validates_method_witness :
    (∃ s, FailSampler.init "" none "HEAD" none none = Except.ok s)
    ∧ (¬ ∃ s, FailSampler.init "" none "sideways" none none = Except.ok s)
    ∧ FailSampler.take_sample
        { save_dir := "", save_filename := none, sample_method := "sideways",
          sample_size := some 1, random_state := none }
        (fun l _ _ => l) ([10, 20] : List Nat) [true, true]
      = (maskFilter [10, 20] [true, true]).take 1 := by
  refine ⟨?_, ?_, ?_⟩
  · exact (C6_init_validates_method "" none "HEAD" none none).1.mpr (by decide)
  · intro h
    exact absurd ((C6_init_validates_method "" none "sideways" none none).1.mp h) (by decide)
  · exact (C6_init_validates_method "" none "sideways" none none).2
      _ (fun l _ _ => l) [10, 20] [true, true] 0 rfl (by decide) (by decide)

/-- Pythonic optional suffix used by the missing-column warning: a space plus
the frame description when that is truthy, nothing otherwise. -/
def optDescSuffix (df_desc : Option String) : String :=
  match df_desc with
  | none => ""
  | some d => if d = "" then "" else " " ++ d

/-- Embedding of `check_col_format` (src/singledf.py).  The regex collaborator
is split into its printed form `rxRepr` (used in the default detail) and the
opaque match test `rxMatch` applied to each stringified cell.  When the column
is absent a warning is emitted first and the subsequent column selection
raises `KeyError`, which aborts the check. -/
def check_col_format (df : DataFrame) (col : String) (rxRepr : String)
    (rxMatch : String → Bool) (df_desc : Option String) (inspector_title : String)
    (inspection_detail : Option String) (logger : Bool) (fail_sampler : Bool) :
    List Event × Except String (Option Bool) :=
  let warnEvts :=
    if df.cols.contains col then []
    else [emitWarn logger ("Column " ++ col ++ " not found in dataframe" ++ optDescSuffix df_desc)]
  let detail := pyOr inspection_detail ("Column " ++ col ++ " vs. pattern " ++ rxRepr)
  match df.getCol col with
  | Except.error e => (warnEvts, Except.error e)
  | Except.ok cells =>
    let ok := cells.map (fun c => rxMatch (cellStr c))
    if ok.all id then
      (warnEvts ++
        [emitInfo logger (make_log_msg (some inspector_title) (some "PASS") (some detail) df_desc "::")],
       Except.ok (some true))
    else
      let nrows := (ok.filter (fun b => !b)).length
      let detail2 := detail ++ " " ++ toString nrows ++ " violations"
      let msg := make_log_msg (some inspector_title) (some "FAIL") (some detail2) df_desc "::"
      let fname := make_log_msg (some inspector_title) (some "FAIL") (some detail2) df_desc " "
      (warnEvts ++ [emitErr logger msg] ++
        (if fail_sampler then [Event.sampled fname (ok.map (fun b => !b))] else []),
       Except.ok (some false))

theorem findIdx?_eq_none_of_not_contains (l : List String) (col : String)
    (h : l.contains col = false) : l.findIdx? (fun c => c == col) = none := by
  induction l with
  | nil => rfl
  | cons x xs ih =>
    simp only [List.contains_cons, Bool.or_eq_false_iff] at h
    have hx : (x == col) = false := by
      rw [beq_eq_false_iff_ne] at h ⊢
      exact fun hxc => h.1 hxc.symm
    simp [List.findIdx?, hx, ih h.2]

theorem contains_of_getCol_ok (df : DataFrame) (col : String) (cells : List (Option String))
    (hc : df.getCol col = Except.ok cells) : df.cols.contains col = true := by
  cases h : df.cols.contains col with
  | true => rfl
  | false =>
    unfold DataFrame.getCol at hc
    rw [findIdx?_eq_none_of_not_contains _ _ h] at hc
    exact Except.noConfusion hc

theorem check_col_format_missing_eq (df : DataFrame) (col rxRepr : String)
    (rxMatch : String → Bool) (df_desc : Option String) (title : String)
    (d0 : Option String) (logger fail_sampler : Bool)
    (h : df.cols.contains col = false) :
    check_col_format df col rxRepr rxMatch df_desc title d0 logger fail_sampler =
      ([emitWarn logger ("Column " ++ col ++ " not found in dataframe" ++ optDescSuffix df_desc)],
       Except.error ("KeyError: " ++ col)) := by
  have hm : col ∉ df.cols := by simpa using h
  unfold check_col_format DataFrame.getCol
  rw [findIdx?_eq_none_of_not_contains _ _ h]
  simp [hm]

theorem check_col_format_pass_eq (df : DataFrame) (col rxRepr : String)
    (rxMatch : String → Bool) (df_desc : Option String) (title : String)
    (d0 : Option String) (logger fail_sampler : Bool) (cells : List (Option String))
    (hc : df.getCol col = Except.ok cells)
    (hall : (cells.map (fun c => rxMatch (cellStr c))).all id = true) :
    check_col_format df col rxRepr rxMatch df_desc title d0 logger fail_sampler =
      ([emitInfo logger (make_log_msg (some title) (some "PASS")
          (some (pyOr d0 ("Column " ++ col ++ " vs. pattern " ++ rxRepr))) df_desc "::")],
       Except.ok (some true)) := by
  have hp : col ∈ df.cols := by simpa using contains_of_getCol_ok df col cells hc
  unfold check_col_format
  rw [hc]
  simp [hp, hall]

theorem check_col_format_fail_eq (df : DataFrame) (col rxRepr : String)
    (rxMatch : String → Bool) (df_desc : Option String) (title : String)
    (d0 : Option String) (logger fail_sampler : Bool) (cells : List (Option String))
    (hc : df.getCol col = Except.ok cells)
    (hall : (cells.map (fun c => rxMatch (cellStr c))).all id = false) :
    check_col_format df col rxRepr rxMatch df_desc title d0 logger fail_sampler =
      ([emitErr logger (make_log_msg (some title) (some "FAIL")
          (some (pyOr d0 ("Column " ++ col ++ " vs. pattern " ++ rxRepr) ++ " "
            ++ toString (((cells.map (fun c => rxMatch (cellStr c))).filter (fun b => !b)).length)
            ++ " violations")) df_desc "::")] ++
        (if fail_sampler then
          [Event.sampled (make_log_msg (some title) (some "FAIL")
              (some (pyOr d0 ("Column " ++ col ++ " vs. pattern " ++ rxRepr) ++ " "
                ++ toString (((cells.map (fun c => rxMatch (cellStr c))).filter (fun b => !b)).length)
                ++ " violations")) df_desc " ")
            ((cells.map (fun c => rxMatch (cellStr c))).map (fun b => !b))]
         else []),
       Except.ok (some false)) := by
  have hp : col ∈ df.cols := by simpa using contains_of_getCol_ok df col cells hc
  unfold check_col_format
  rw [hc]
  simp [hp, hall]

/-- Concrete match test modelling the scenario pattern (caret A digit dollar):
true exactly on two-character strings starting with A followed by a digit. -/
def scenarioMatch (s : String) : Bool :=
  match s.data with
  | ['A', c] => c.isDigit
  | _ => false

/-- C1: when the frame has the named column, `check_col_format` returns true
iff every stringified cell of that column passes the match test; and whenever
some cell fails it, the verdict is false and the FAIL message logged carries
the detail with the number of non-matching rows appended. -/
theorem C1_check_col_format_verdict (df : DataFrame) (col rxRepr : String)
    (rxMatch : String → Bool) (df_desc d0 : Option String) (logger fail_sampler : Bool)
    (cells : List (Option String)) (hc : df.getCol col = Except.ok cells) :
    ((check_col_format df col rxRepr rxMatch df_desc "check_col_format" d0 logger fail_sampler).2
        = Except.ok (some true) ↔ ∀ c ∈ cells, rxMatch (cellStr c) = true)
    ∧ ((∃ c ∈ cells, rxMatch (cellStr c) = false) →
        (check_col_format df col rxRepr rxMatch df_desc "check_col_format" d0 logger fail_sampler).2
            = Except.ok (some false)
        ∧ emitErr logger (make_log_msg (some "check_col_format") (some "FAIL")
              (some (pyOr d0 ("Column " ++ col ++ " vs. pattern " ++ rxRepr) ++ " "
                ++ toString (cells.countP (fun c => !(rxMatch (cellStr c)))) ++ " violations"))
              df_desc "::")
            ∈ (check_col_format df col rxRepr rxMatch df_desc "check_col_format"
                d0 logger fail_sampler).1) := by
  have hcount : ((cells.map (fun c => rxMatch (cellStr c))).filter (fun b => !b)).length
      = cells.countP (fun c => !(rxMatch (cellStr c))) := by
    rw [List.filter_map]
    simp only [List.length_map, List.countP_eq_length_filter, Function.comp_def]
  by_cases hall : (cells.map (fun c => rxMatch (cellStr c))).all id = true
  · rw [check_col_format_pass_eq df col rxRepr rxMatch df_desc _ d0 logger fail_sampler cells hc hall]
    have hAll : ∀ c ∈ cells, rxMatch (cellStr c) = true := by
      intro c hcmem
      have := List.all_eq_true.mp hall (rxMatch (cellStr c)) (List.mem_map_of_mem _ hcmem)
      simpa using this
    constructor
    · exact iff_of_true rfl hAll
    · rintro ⟨c, hcmem, hviol⟩
      rw [hAll c hcmem] at hviol
      exact Bool.noConfusion hviol
  · rw [Bool.not_eq_true] at hall
    rw [check_col_format_fail_eq df col rxRepr rxMatch df_desc _ d0 logger fail_sampler cells hc hall]
    refine ⟨?_, fun _ => ⟨rfl, ?_⟩⟩
    · constructor
      · intro h
        exact absurd h (by simp)
      · intro hAll
        rw [List.all_eq_false] at hall
        obtain ⟨b, hbmem, hb⟩ := hall
        obtain ⟨c, hcmem, rfl⟩ := List.mem_map.mp hbmem
        rw [hAll c hcmem] at hb
        simp at hb
    · rw [hcount]
      simp

/-- C1 witness: the spec scenario — column id with values A1, A2, B1 against
the pattern caret A digit dollar: verdict false, FAIL message logged with 1
violation (the row with B1). -/
theorem C1_check_col_format_verdict_witness :
    (check_col_format ⟨["id"], [[some "A1"], [some "A2"], [some "B1"]]⟩ "id" "^A\\d$"
        scenarioMatch none "check_col_format" none true true).2 = Except.ok (some false)
    ∧ emitErr true (make_log_msg (some "check_col_format") (some "FAIL")
          (some (pyOr none ("Column " ++ "id" ++ " vs. pattern " ++ "^A\\d$") ++ " "
            ++ toString (([some "A1", some "A2", some "B1"] : List (Option String)).countP
                (fun c => !(scenarioMatch (cellStr c)))) ++ " violations"))
          none "::")
        ∈ (check_col_format ⟨["id"], [[some "A1"], [some "A2"], [some "B1"]]⟩ "id" "^A\\d$"
            scenarioMatch none "check_col_format" none true true).1 :=
  (C1_check_col_format_verdict ⟨["id"], [[some "A1"], [some "A2"], [some "B1"]]⟩ "id" "^A\\d$"
      scenarioMatch none none true true [some "A1", some "A2", some "B1"] rfl).2
    ⟨some "B1", by decide, by decide⟩

/-- C7 counterexample: on a frame without the requested column,
`check_col_format` does emit the warning but then aborts with `KeyError`; it
never returns a PASS/FAIL verdict, contradicting the claim that it continues
and completes the check. -/
theorem C7_counterexample :
    (check_col_format ⟨["a"], [[some "x"]]⟩ "b" "p" (fun _ => true) none "check_col_format"
        none false false).1 = [Event.printed "Column b not found in dataframe"]
    ∧ (check_col_format ⟨["a"], [[some "x"]]⟩ "b" "p" (fun _ => true) none "check_col_format"
        none false false).2 = Except.error "KeyError: b"
    ∧ ¬ ∃ b : Option Bool,
        (check_col_format ⟨["a"], [[some "x"]]⟩ "b" "p" (fun _ => true) none "check_col_format"
          none false false).2 = Except.ok b := by
  refine ⟨by decide, rfl, ?_⟩
  rintro ⟨b, hb⟩
  rw [show (check_col_format ⟨["a"], [[some "x"]]⟩ "b" "p" (fun _ => true) none "check_col_format"
      none false false).2 = Except.error "KeyError: b" from rfl] at hb
  exact Except.noConfusion hb

/-- C7 amended: on a missing column the check emits the warning to the sink
(or prints it without one) and then raises `KeyError` from the column lookup
instead of completing with a verdict. -/
theorem C7_missing_column_warns_then_raises (df : DataFrame) (col rxRepr : String)
    (rxMatch : String → Bool) (df_desc : Option String) (title : String)
    (d0 : Option String) (logger fail_sampler : Bool)
    (h : df.cols.contains col = false) :
    check_col_format df col rxRepr rxMatch df_desc title d0 logger fail_sampler =
      ([emitWarn logger ("Column " ++ col ++ " not found in dataframe" ++ optDescSuffix df_desc)],
       Except.error ("KeyError: " ++ col)) :=
  check_col_format_missing_eq df col rxRepr rxMatch df_desc title d0 logger fail_sampler h

/-- C7 amended witness: concrete missing column with a logging sink present
and a frame description. -/
theorem C7_missing_column_warns_then_raises_witness :
    check_col_format ⟨["a"], [[some "x"]]⟩ "b" "p" (fun _ => true) (some "T1") "check_col_format"
        none true false
      = ([emitWarn true ("Column " ++ "b" ++ " not found in dataframe"
            ++ optDescSuffix (some "T1"))],
         Except.error ("KeyError: " ++ "b")) :=
  C7_missing_column_warns_then_raises ⟨["a"], [[some "x"]]⟩ "b" "p" (fun _ => true) (some "T1")
    "check_col_format" none true false (by decide)

/-- Pythonic column-list default of `check_missing_values`:
`cols if cols else df.columns.tolist()` — both `None` and the empty list are
falsy and fall back to all columns of the frame. -/
def resolveCols (df : DataFrame) (cols0 : Option (List String)) : List String :=
  match cols0 with
  | none => df.cols
  | some l => if l = [] then df.cols else l

/-- Embedding of `check_missing_values` (src/singledf.py).  Note the FAIL
branch of the source logs with `logger.error(msg) if logger else None`: with
no sink the message is dropped, there is no print fallback there. -/
def check_missing_values (df : DataFrame) (cols0 : Option (List String))
    (df_desc : Option String) (inspector_title : String) (inspection_detail : Option String)
    (logger : Bool) (fail_sampler : Bool) : List Event × Except String (Option Bool) :=
  let cols := resolveCols df cols0
  match df.colIdxs cols with
  | Except.error e => ([], Except.error e)
  | Except.ok idxs =>
    let ok := idxs.map (fun i => df.rows.all (fun r => (r.getD i none).isSome))
    if ok.all id then
      let detail := pyOr inspection_detail ("No missing values in " ++ pyListRepr cols)
      ([emitInfo logger (make_log_msg (some inspector_title) (some "PASS") (some detail) df_desc "::")],
       Except.ok (some true))
    else
      let fail_cols := ((cols.zip ok).filter (fun p => !p.2)).map Prod.fst
      let detail := pyOr inspection_detail ("Missing values found in columns " ++ pyListRepr fail_cols)
      let msg := make_log_msg (some inspector_title) (some "FAIL") (some detail) df_desc "::"
      let fname := make_log_msg (some inspector_title) (some "FAIL") (some detail) df_desc " "
      let failIdxs := ((idxs.zip ok).filter (fun p => !p.2)).map Prod.fst
      let fail_index := df.rows.map (fun r => failIdxs.any (fun i => (r.getD i none).isNone))
      ((if logger then [Event.error msg] else []) ++
        (if fail_sampler then [Event.sampled fname fail_index] else []),
       Except.ok (some false))

/-- First-occurrence deduplication with an accumulator of already seen keys.
pandas enumerates group keys in sorted order; the claims proved below are
insensitive to the enumeration order of groups, so first-occurrence order
stands in for it. -/
def dedupSeen {α : Type} [BEq α] : List α → List α → List α
  | _, [] => []
  | seen, x :: xs =>
    if seen.contains x then dedupSeen seen xs else x :: dedupSeen (x :: seen) xs

/-- Distinct elements of a list, first occurrence first. -/
def dedupFirstOcc {α : Type} [BEq α] (l : List α) : List α :=
  dedupSeen [] l

/-- Grouping and aggregation `df.groupby(by)[check_col].agg(agg_func)`: group
rows by the value tuple of the `by` columns, apply the aggregation to the
checked column of each group; `KeyError` if a referenced column is absent
(the group-by columns are resolved first, as pandas does). -/
def groupbyAgg {α : Type} (df : DataFrame) (groupBy : List String) (check_col : String)
    (agg_func : List (Option String) → α) :
    Except String (List (List (Option String) × α)) :=
  match df.colIdxs groupBy with
  | Except.error e => Except.error e
  | Except.ok byIdxs =>
    match df.cols.findIdx? (fun x => x == check_col) with
    | none => Except.error ("KeyError: " ++ check_col)
    | some ci =>
      let keyOf := fun (r : List (Option String)) => byIdxs.map (fun i => r.getD i none)
      let keys := df.rows.map keyOf
      Except.ok ((dedupFirstOcc keys).map (fun k =>
        (k, agg_func ((df.rows.filter (fun r => keyOf r == k)).map (fun r => r.getD ci none)))))

/-- Resolution of the displayed aggregation-function name:
`agg_func.__name__ if agg_func_name=='infer' and hasattr(agg_func,'__name__')
else str(agg_func_name)`; the optional dunder name of the function object is
passed in explicitly. -/
def resolved_agg_func_name (agg_func_name : String) (aggFuncDunder : Option String) : String :=
  match aggFuncDunder with
  | some n => if agg_func_name = "infer" then n else agg_func_name
  | none => agg_func_name

/-- Default detail text of the group-aggregate check. -/
def gbAggDetail (check_col : String) (groupBy : List String) (aggName valStr : String) : String :=
  check_col ++ " grouped by " ++ pyListRepr groupBy ++ " aggregated by " ++ aggName
    ++ " compared with " ++ valStr

/-- Python str of a boolean. -/
def pyBoolRepr (b : Bool) : String :=
  if b then "True" else "False"

/-- Embedding of `check_groupby_agg` (src/singledf.py).  The aggregate value
type `α` is generic; exact comparison uses its `BEq`, the tolerant mode
delegates to the opaque `isClose` collaborator (numpy `isclose` with the
caller-supplied tolerance keywords baked in).  A falsy (empty) `check_col`
sends the source down the whole-frame aggregation path, where evaluating the
truth value of the resulting boolean DataFrame raises `ValueError`; that path
is embedded as that error. -/
def check_groupby_agg {α : Type} [BEq α] (df : DataFrame) (groupBy : List String)
    (check_col : String) (agg_func : List (Option String) → α) (desired_agg_val : α)
    (almost_equal : Bool) (isClose : α → α → Bool) (agg_func_name : String)
    (aggFuncDunder : Option String) (valRepr : α → String) (df_desc : Option String)
    (inspector_title : Option String) (inspection_detail : Option String)
    (logger : Bool) (fail_sampler : Bool) : List Event × Except String (Option Bool) :=
  let title := pyOr inspector_title "Group Aggregate Check"
  let aggName := resolved_agg_func_name agg_func_name aggFuncDunder
  let detail := pyOr inspection_detail
    (gbAggDetail check_col groupBy aggName (valRepr desired_agg_val))
  if check_col = "" then
    ([], Except.error "ValueError: The truth value of a DataFrame is ambiguous")
  else
    match groupbyAgg df groupBy check_col agg_func with
    | Except.error e => ([], Except.error e)
    | Except.ok pairs =>
      let ok := if almost_equal then pairs.map (fun p => isClose p.2 desired_agg_val)
                else pairs.map (fun p => p.2 == desired_agg_val)
      if ok.all id then
        ([emitInfo logger (make_log_msg (some title) (some "PASS") (some detail) df_desc "::")],
         Except.ok (some true))
      else
        let n := (ok.filter (fun b => !b)).length
        let detail2 := detail ++ " " ++ toString n ++ " violations"
        let msg := make_log_msg (some title) (some "FAIL") (some detail2) df_desc "::"
        let fname := make_log_msg (some title) (some "FAIL") (some detail2) df_desc " "
        ([emitErr logger msg] ++
          (if fail_sampler then [Event.sampled fname (ok.map (fun b => !b))] else []),
         Except.ok (some false))

/-- Per-group distinct-value test used by `check_groupby_identical`:
`lambda series: series.nunique(dropna=False) <= 1` (null counted as one
distinct value). -/
def nuniqueLeOne (cells : List (Option String)) : Bool :=
  decide ((dedupFirstOcc cells).length ≤ 1)

/-- Embedding of `check_groupby_identical` (src/singledf.py): delegates to
`check_groupby_agg` with the distinct-count aggregation and desired value
`True` — and discards its return value; the body then falls off the end, so
the function returns the Python value `None` (embedded as verdict `none`)
whenever the delegate returns normally, while exceptions propagate. -/
def check_groupby_identical (df : DataFrame) (groupBy : List String) (check_col : String)
    (df_desc : Option String) (inspector_title : Option String)
    (inspection_detail : Option String) (logger : Bool) (fail_sampler : Bool) :
    List Event × Except String (Option Bool) :=
  let detail := pyOr inspection_detail
    (check_col ++ " grouped by " ++ pyListRepr groupBy ++ " is identical within group?")
  match check_groupby_agg df groupBy check_col nuniqueLeOne true false (fun _ _ => false)
      "infer" (some "<lambda>") pyBoolRepr df_desc inspector_title (some detail)
      logger fail_sampler with
  | (evts, Except.error e) => (evts, Except.error e)
  | (evts, Except.ok _) => (evts, Except.ok none)

/-- Row mask of `df.duplicated(subset=cols, keep=False)`: true on every row
whose value combination over the subset columns (all columns when the subset
is `None`) occurs at least twice in the frame. -/
def dupMask (df : DataFrame) (cols : Option (List String)) : Except String (List Bool) :=
  match cols with
  | none =>
    Except.ok (df.rows.map (fun k => decide (2 ≤ df.rows.count k)))
  | some l =>
    match df.colIdxs l with
    | Except.error e => Except.error e
    | Except.ok idxs =>
      let keys := df.rows.map (fun r => idxs.map (fun i => r.getD i none))
      Except.ok (keys.map (fun k => decide (2 ≤ keys.count k)))

/-- Embedding of `check_no_duplicate` (src/singledf.py).  Both branches
overwrite the `inspection_detail` argument with a fixed derived string, so
that argument never reaches any output; and the FAIL branch has no `return`
statement in the source — the function ends and returns the Python value
`None` (verdict `none`), not `False`. -/
def check_no_duplicate (df : DataFrame) (cols : Option (List String)) (df_desc : Option String)
    (inspector_title : String) (inspection_detail : Option String) (logger : Bool)
    (fail_sampler : Bool) : List Event × Except String (Option Bool) :=
  match dupMask df cols with
  | Except.error e => ([], Except.error e)
  | Except.ok dup =>
    if dup.any id = false then
      let detail := "No duplicate in combinations of " ++ optColsRepr cols
      ([emitInfo logger (make_log_msg (some inspector_title) (some "PASS") (some detail) df_desc "::")],
       Except.ok (some true))
    else
      let n := (dup.filter id).length
      let detail := "Duplicates found in cols " ++ optColsRepr cols ++ " "
        ++ toString n ++ " violations"
      let msg := make_log_msg (some inspector_title) (some "FAIL") (some detail) df_desc "::"
      let fname := make_log_msg (some inspector_title) (some "FAIL") (some detail) df_desc " "
      ([emitErr logger msg] ++ (if fail_sampler then [Event.sampled fname dup] else []),
       Except.ok none)

/-- Bound configuration of `IdenticalWithinGroupInspector`. -/
structure IdenticalWithinGroupInspector where
  groupBy : List String
  check_col : String
  title : String
  detail : String
  logger : Bool
  fail_sampler : Bool
deriving Repr

/-- Embedding of `IdenticalWithinGroupInspector.__init__`: resolves the
detail default once at construction. -/
def IdenticalWithinGroupInspector.init (groupBy : List String) (check_col : String)
    (title : String) (detail0 : Option String) (logger fail_sampler : Bool) :
    IdenticalWithinGroupInspector :=
  { groupBy := groupBy, check_col := check_col, title := title,
    detail := pyOr detail0 (check_col ++ " grouped by " ++ pyListRepr groupBy),
    logger := logger, fail_sampler := fail_sampler }

/-- Embedding of `IdenticalWithinGroupInspector.inspect`: forwards the bound
configuration plus the per-call frame and description to
`check_groupby_identical` and returns its result. -/
def IdenticalWithinGroupInspector.inspect (insp : IdenticalWithinGroupInspector)
    (df : DataFrame) (df_desc : Option String) : List Event × Except String (Option Bool) :=
  check_groupby_identical df insp.groupBy insp.check_col df_desc (some insp.title)
    (some insp.detail) insp.logger insp.fail_sampler

/-- Bound configuration of `NoDuplicateInspector` (the detail is stored as
passed, with no default resolution in its constructor). -/
structure NoDuplicateInspector where
  cols : Option (List String)
  title : String
  detail : Option String
  logger : Bool
  fail_sampler : Bool
deriving Repr

/-- Embedding of `NoDuplicateInspector.inspect`: forwards the bound
configuration plus the per-call frame and description to
`check_no_duplicate` and returns its result. -/
def NoDuplicateInspector.inspect (insp : NoDuplicateInspector) (df : DataFrame)
    (df_desc : Option String) : List Event × Except String (Option Bool) :=
  check_no_duplicate df insp.cols df_desc insp.title insp.detail insp.logger insp.fail_sampler

theorem check_missing_values_pass_eq (df : DataFrame) (cols0 : Option (List String))
    (df_desc : Option String) (title : String) (d0 : Option String) (logger fail_sampler : Bool)
    (idxs : List Nat) (hc : df.colIdxs (resolveCols df cols0) = Except.ok idxs)
    (hall : (idxs.map (fun i => df.rows.all (fun r => (r.getD i none).isSome))).all id = true) :
    check_missing_values df cols0 df_desc title d0 logger fail_sampler =
      ([emitInfo logger (make_log_msg (some title) (some "PASS")
          (some (pyOr d0 ("No missing values in " ++ pyListRepr (resolveCols df cols0))))
          df_desc "::")],
       Except.ok (some true)) := by
  simp only [check_missing_values, hc]
  rw [if_pos hall]

theorem check_missing_values_fail_eq (df : DataFrame) (cols0 : Option (List String))
    (df_desc : Option String) (title : String) (d0 : Option String) (logger fail_sampler : Bool)
    (idxs : List Nat) (hc : df.colIdxs (resolveCols df cols0) = Except.ok idxs)
    (hall : (idxs.map (fun i => df.rows.all (fun r => (r.getD i none).isSome))).all id = false) :
    check_missing_values df cols0 df_desc title d0 logger fail_sampler =
      ((if logger then
          [Event.error (make_log_msg (some title) (some "FAIL")
            (some (pyOr d0 ("Missing values found in columns "
              ++ pyListRepr ((((resolveCols df cols0).zip
                    (idxs.map (fun i => df.rows.all (fun r => (r.getD i none).isSome)))).filter
                    (fun p => !p.2)).map Prod.fst)))) df_desc "::")]
        else []) ++
        (if fail_sampler then
          [Event.sampled (make_log_msg (some title) (some "FAIL")
              (some (pyOr d0 ("Missing values found in columns "
                ++ pyListRepr ((((resolveCols df cols0).zip
                      (idxs.map (fun i => df.rows.all (fun r => (r.getD i none).isSome)))).filter
                      (fun p => !p.2)).map Prod.fst)))) df_desc " ")
            (df.rows.map (fun r =>
              ((((idxs.zip (idxs.map (fun i => df.rows.all (fun r => (r.getD i none).isSome)))).filter
                  (fun p => !p.2)).map Prod.fst).any (fun i => (r.getD i none).isNone))))]
         else []),
       Except.ok (some false)) := by
  simp only [check_missing_values, hc]
  rw [if_neg (by rw [hall]; exact Bool.false_ne_true)]

theorem check_groupby_agg_pass_eq {α : Type} [BEq α] (df : DataFrame) (groupBy : List String)
    (check_col : String) (agg_func : List (Option String) → α) (desired : α)
    (almost : Bool) (isClose : α → α → Bool) (name : String) (dunder : Option String)
    (valRepr : α → String) (df_desc title0 d0 : Option String) (logger fail_sampler : Bool)
    (pairs : List (List (Option String) × α)) (okl : List Bool)
    (hcc : ¬ check_col = "")
    (hg : groupbyAgg df groupBy check_col agg_func = Except.ok pairs)
    (hok : (if almost then pairs.map (fun p => isClose p.2 desired)
            else pairs.map (fun p => p.2 == desired)) = okl)
    (hall : okl.all id = true) :
    check_groupby_agg df groupBy check_col agg_func desired almost isClose name dunder valRepr
        df_desc title0 d0 logger fail_sampler =
      ([emitInfo logger (make_log_msg (some (pyOr title0 "Group Aggregate Check")) (some "PASS")
          (some (pyOr d0 (gbAggDetail check_col groupBy (resolved_agg_func_name name dunder)
            (valRepr desired)))) df_desc "::")],
       Except.ok (some true)) := by
  subst hok
  simp [check_groupby_agg, hcc, hg, hall]

theorem check_groupby_agg_fail_eq {α : Type} [BEq α] (df : DataFrame) (groupBy : List String)
    (check_col : String) (agg_func : List (Option String) → α) (desired : α)
    (almost : Bool) (isClose : α → α → Bool) (name : String) (dunder : Option String)
    (valRepr : α → String) (df_desc title0 d0 : Option String) (logger fail_sampler : Bool)
    (pairs : List (List (Option String) × α)) (okl : List Bool)
    (hcc : ¬ check_col = "")
    (hg : groupbyAgg df groupBy check_col agg_func = Except.ok pairs)
    (hok : (if almost then pairs.map (fun p => isClose p.2 desired)
            else pairs.map (fun p => p.2 == desired)) = okl)
    (hall : okl.all id = false) :
    check_groupby_agg df groupBy check_col agg_func desired almost isClose name dunder valRepr
        df_desc title0 d0 logger fail_sampler =
      ([emitErr logger (make_log_msg (some (pyOr title0 "Group Aggregate Check")) (some "FAIL")
          (some (pyOr d0 (gbAggDetail check_col groupBy (resolved_agg_func_name name dunder)
              (valRepr desired)) ++ " " ++ toString ((okl.filter (fun b => !b)).length)
            ++ " violations")) df_desc "::")] ++
        (if fail_sampler then
          [Event.sampled (make_log_msg (some (pyOr title0 "Group Aggregate Check")) (some "FAIL")
              (some (pyOr d0 (gbAggDetail check_col groupBy (resolved_agg_func_name name dunder)
                  (valRepr desired)) ++ " " ++ toString ((okl.filter (fun b => !b)).length)
                ++ " violations")) df_desc " ")
            (okl.map (fun b => !b))]
         else []),
       Except.ok (some false)) := by
  subst hok
  simp [check_groupby_agg, hcc, hg, hall]

theorem check_no_duplicate_pass_eq (df : DataFrame) (cols : Option (List String))
    (df_desc : Option String) (title : String) (d0 : Option String) (logger fail_sampler : Bool)
    (dup : List Bool) (hd : dupMask df cols = Except.ok dup) (hany : dup.any id = false) :
    check_no_duplicate df cols df_desc title d0 logger fail_sampler =
      ([emitInfo logger (make_log_msg (some title) (some "PASS")
          (some ("No duplicate in combinations of " ++ optColsRepr cols)) df_desc "::")],
       Except.ok (some true)) := by
  simp [check_no_duplicate, hd, hany]

theorem check_no_duplicate_fail_eq (df : DataFrame) (cols : Option (List String))
    (df_desc : Option String) (title : String) (d0 : Option String) (logger fail_sampler : Bool)
    (dup : List Bool) (hd : dupMask df cols = Except.ok dup) (hany : dup.any id = true) :
    check_no_duplicate df cols df_desc title d0 logger fail_sampler =
      ([emitErr logger (make_log_msg (some title) (some "FAIL")
          (some ("Duplicates found in cols " ++ optColsRepr cols ++ " "
            ++ toString ((dup.filter id).length) ++ " violations")) df_desc "::")] ++
        (if fail_sampler then
          [Event.sampled (make_log_msg (some title) (some "FAIL")
              (some ("Duplicates found in cols " ++ optColsRepr cols ++ " "
                ++ toString ((dup.filter id).length) ++ " violations")) df_desc " ")
            dup]
         else []),
       Except.ok none) := by
  simp [check_no_duplicate, hd, hany]

/-- C2: code bug.  On the spec scenario — rows (1,2), (1,2), (3,4) checked on
columns a, b — `check_no_duplicate` flags both occurrences of the duplicated
pair (2 violations in the FAIL message, mask true on both rows), but its FAIL
branch has no return statement: the function returns the Python value `None`
(verdict `none` here), not the `False` promised by its own docstring and the
claim. -/
theorem C2_no_duplicate_fail_returns_none :
    (check_no_duplicate
        ⟨["a", "b"], [[some "1", some "2"], [some "1", some "2"], [some "3", some "4"]]⟩
        (some ["a", "b"]) none "check_no_duplicate" none true true).2 = Except.ok none
    ∧ (check_no_duplicate
        ⟨["a", "b"], [[some "1", some "2"], [some "1", some "2"], [some "3", some "4"]]⟩
        (some ["a", "b"]) none "check_no_duplicate" none true true).1
      = [Event.error (make_log_msg (some "check_no_duplicate") (some "FAIL")
            (some ("Duplicates found in cols " ++ optColsRepr (some ["a", "b"])
              ++ " 2 violations")) none "::"),
         Event.sampled (make_log_msg (some "check_no_duplicate") (some "FAIL")
            (some ("Duplicates found in cols " ++ optColsRepr (some ["a", "b"])
              ++ " 2 violations")) none " ")
          [true, true, false]]
    ∧ (check_no_duplicate
        ⟨["a", "b"], [[some "1", some "2"], [some "1", some "2"], [some "3", some "4"]]⟩
        (some ["a", "b"]) none "check_no_duplicate" none true true).2
        ≠ Except.ok (some false) := by
  refine ⟨rfl, by decide, fun h => ?_⟩
  rw [show (check_no_duplicate
      ⟨["a", "b"], [[some "1", some "2"], [some "1", some "2"], [some "3", some "4"]]⟩
      (some ["a", "b"]) none "check_no_duplicate" none true true).2 = Except.ok none
    from rfl] at h
  exact Option.noConfusion (Except.ok.inj h)

/-- C3: code bug.  `IdenticalWithinGroupInspector.inspect` forwards to
`check_groupby_identical`, whose body never returns the delegated verdict:
on the spec scenario (groups with a single distinct value each, so the inner
check passes and logs PASS) `inspect` still yields the Python value `None`
(verdict `none`), never a boolean, contradicting the `inspect -> bool`
contract claimed. -/
theorem C3_identical_within_group_inspect_returns_none :
    (IdenticalWithinGroupInspector.inspect
        (IdenticalWithinGroupInspector.init ["g"] "v" "Identical Within Group Check" none true true)
        ⟨["g", "v"], [[some "1", some "10"], [some "1", some "10"], [some "2", some "5"]]⟩
        none).2 = Except.ok none
    ∧ (IdenticalWithinGroupInspector.inspect
        (IdenticalWithinGroupInspector.init ["g"] "v" "Identical Within Group Check" none true true)
        ⟨["g", "v"], [[some "1", some "10"], [some "1", some "10"], [some "2", some "5"]]⟩
        none).1
      = [Event.info (make_log_msg (some "Identical Within Group Check") (some "PASS")
          (some ("v grouped by " ++ pyListRepr ["g"])) none "::")]
    ∧ ∀ b : Bool,
        (IdenticalWithinGroupInspector.inspect
          (IdenticalWithinGroupInspector.init ["g"] "v" "Identical Within Group Check" none true true)
          ⟨["g", "v"], [[some "1", some "10"], [some "1", some "10"], [some "2", some "5"]]⟩
          none).2 ≠ Except.ok (some b) := by
  refine ⟨rfl, by decide, fun b h => ?_⟩
  rw [show (IdenticalWithinGroupInspector.inspect
      (IdenticalWithinGroupInspector.init ["g"] "v" "Identical Within Group Check" none true true)
      ⟨["g", "v"], [[some "1", some "10"], [some "1", some "10"], [some "2", some "5"]]⟩
      none).2 = Except.ok none from rfl] at h
  exact Option.noConfusion (Except.ok.inj h)

/-- C10: `check_no_duplicate` ignores its `inspection_detail` argument — both
branches overwrite it with a fixed derived string — so two runs differing only
in that argument produce identical events (log messages and sample filenames)
and the same verdict; consequently a detail bound in `NoDuplicateInspector`
never reaches the output either. -/
theorem C10_no_duplicate_detail_noninterference (df : DataFrame) (cols : Option (List String))
    (df_desc : Option String) (title : String) (d1 d2 : Option String)
    (logger fail_sampler : Bool) :
    check_no_duplicate df cols df_desc title d1 logger fail_sampler
      = check_no_duplicate df cols df_desc title d2 logger fail_sampler
    ∧ ∀ (df_desc2 : Option String),
        NoDuplicateInspector.inspect ⟨cols, title, d1, logger, fail_sampler⟩ df df_desc2
          = NoDuplicateInspector.inspect ⟨cols, title, d2, logger, fail_sampler⟩ df df_desc2 :=
  ⟨rfl, fun _ => rfl⟩

/-- C4 counterexample: `check_missing_values` on a one-column frame with a
null logs a FAIL message whose detail merely names the failing columns; the
mask has exactly one violation, yet the logged message differs from the one
that the claimed count-appending would have produced. -/
theorem C4_counterexample_missing_values_no_count :
    (check_missing_values ⟨["a"], [[none]]⟩ none none "check_missing_values" none true false).1
      = [Event.error (make_log_msg (some "check_missing_values") (some "FAIL")
          (some ("Missing values found in columns " ++ pyListRepr ["a"])) none "::")]
    ∧ (check_missing_values ⟨["a"], [[none]]⟩ none none "check_missing_values" none true false).2
      = Except.ok (some false)
    ∧ make_log_msg (some "check_missing_values") (some "FAIL")
          (some ("Missing values found in columns " ++ pyListRepr ["a"])) none "::"
        ≠ make_log_msg (some "check_missing_values") (some "FAIL")
          (some ("Missing values found in columns " ++ pyListRepr ["a"] ++ " 1 violations"))
          none "::" :=
  ⟨by decide, rfl, by decide⟩

/-- C4 amended: on a violating mask, `check_col_format`, `check_groupby_agg`
and `check_no_duplicate` log a FAIL message whose detail carries the violation
count appended (non-matching rows, failing groups, rows participating in a
duplicate, respectively) and hand the sampler a filename equal to the FAIL
message rebuilt with a space separator; `check_missing_values` follows the
same filename rule but its FAIL detail names the columns with missing values
and carries no count. -/
theorem C4_fail_detail_and_filename :
    (∀ (df : DataFrame) (col rxRepr : String) (rxMatch : String → Bool)
        (df_desc : Option String) (title : String) (d0 : Option String) (logger : Bool)
        (cells : List (Option String)),
      df.getCol col = Except.ok cells →
      (cells.map (fun c => rxMatch (cellStr c))).all id = false →
      ∃ base mask,
        check_col_format df col rxRepr rxMatch df_desc title d0 logger true =
          ([emitErr logger (make_log_msg (some title) (some "FAIL")
              (some (base ++ " " ++ toString (cells.countP (fun c => !(rxMatch (cellStr c))))
                ++ " violations")) df_desc "::"),
            Event.sampled (make_log_msg (some title) (some "FAIL")
              (some (base ++ " " ++ toString (cells.countP (fun c => !(rxMatch (cellStr c))))
                ++ " violations")) df_desc " ") mask],
           Except.ok (some false)))
    ∧ (∀ {α : Type} [BEq α] (df : DataFrame) (groupBy : List String) (check_col : String)
          (agg_func : List (Option String) → α) (desired : α) (almost : Bool)
          (isClose : α → α → Bool) (name : String) (dunder : Option String)
          (valRepr : α → String) (df_desc title0 d0 : Option String) (logger : Bool)
          (pairs : List (List (Option String) × α)) (okl : List Bool),
        ¬ check_col = "" →
        groupbyAgg df groupBy check_col agg_func = Except.ok pairs →
        (if almost then pairs.map (fun p => isClose p.2 desired)
          else pairs.map (fun p => p.2 == desired)) = okl →
        okl.all id = false →
        ∃ t base mask,
          check_groupby_agg df groupBy check_col agg_func desired almost isClose name dunder
              valRepr df_desc title0 d0 logger true =
            ([emitErr logger (make_log_msg (some t) (some "FAIL")
                (some (base ++ " " ++ toString ((okl.filter (fun b => !b)).length)
                  ++ " violations")) df_desc "::"),
              Event.sampled (make_log_msg (some t) (some "FAIL")
                (some (base ++ " " ++ toString ((okl.filter (fun b => !b)).length)
                  ++ " violations")) df_desc " ") mask],
             Except.ok (some false)))
    ∧ (∀ (df : DataFrame) (cols : Option (List String)) (df_desc : Option String)
          (title : String) (d0 : Option String) (logger : Bool) (dup : List Bool),
        dupMask df cols = Except.ok dup →
        dup.any id = true →
        ∃ base,
          check_no_duplicate df cols df_desc title d0 logger true =
            ([emitErr logger (make_log_msg (some title) (some "FAIL")
                (some (base ++ " " ++ toString ((dup.filter id).length) ++ " violations"))
                df_desc "::"),
              Event.sampled (make_log_msg (some title) (some "FAIL")
                (some (base ++ " " ++ toString ((dup.filter id).length) ++ " violations"))
                df_desc " ") dup],
             Except.ok none))
    ∧ (∀ (df : DataFrame) (cols0 : Option (List String)) (df_desc : Option String)
          (title : String) (d0 : Option String) (logger : Bool) (idxs : List Nat),
        df.colIdxs (resolveCols df cols0) = Except.ok idxs →
        (idxs.map (fun i => df.rows.all (fun r => (r.getD i none).isSome))).all id = false →
        ∃ d mask,
          d = pyOr d0 ("Missing values found in columns "
            ++ pyListRepr ((((resolveCols df cols0).zip
                  (idxs.map (fun i => df.rows.all (fun r => (r.getD i none).isSome)))).filter
                  (fun p => !p.2)).map Prod.fst))
          ∧ check_missing_values df cols0 df_desc title d0 logger true =
            ((if logger then
                [Event.error (make_log_msg (some title) (some "FAIL") (some d) df_desc "::")]
              else []) ++
              [Event.sampled (make_log_msg (some title) (some "FAIL") (some d) df_desc " ") mask],
             Except.ok (some false))) := by
  refine ⟨?_, ?_, ?_, ?_⟩
  · intro df col rxRepr rxMatch df_desc title d0 logger cells hc hall
    refine ⟨pyOr d0 ("Column " ++ col ++ " vs. pattern " ++ rxRepr),
      (cells.map (fun c => rxMatch (cellStr c))).map (fun b => !b), ?_⟩
    have hcount : ((cells.map (fun c => rxMatch (cellStr c))).filter (fun b => !b)).length
        = cells.countP (fun c => !(rxMatch (cellStr c))) := by
      rw [List.filter_map]
      simp only [List.length_map, List.countP_eq_length_filter, Function.comp_def]
    rw [check_col_format_fail_eq df col rxRepr rxMatch df_desc title d0 logger true cells hc hall]
    rw [hcount]
    simp
  · intro α _ df groupBy check_col agg_func desired almost isClose name dunder valRepr
      df_desc title0 d0 logger pairs okl hcc hg hok hall
    refine ⟨pyOr title0 "Group Aggregate Check",
      pyOr d0 (gbAggDetail check_col groupBy (resolved_agg_func_name name dunder)
        (valRepr desired)),
      okl.map (fun b => !b), ?_⟩
    rw [check_groupby_agg_fail_eq df groupBy check_col agg_func desired almost isClose name
      dunder valRepr df_desc title0 d0 logger true pairs okl hcc hg hok hall]
    simp
  · intro df cols df_desc title d0 logger dup hd hany
    refine ⟨"Duplicates found in cols " ++ optColsRepr cols, ?_⟩
    rw [check_no_duplicate_fail_eq df cols df_desc title d0 logger true dup hd hany]
    simp [String.append_assoc]
  · intro df cols0 df_desc title d0 logger idxs hc hall
    refine ⟨_, df.rows.map (fun r =>
        ((((idxs.zip (idxs.map (fun i => df.rows.all (fun r => (r.getD i none).isSome)))).filter
            (fun p => !p.2)).map Prod.fst).any (fun i => (r.getD i none).isNone))), rfl, ?_⟩
    rw [check_missing_values_fail_eq df cols0 df_desc title d0 logger true idxs hc hall]
    simp

/-- C4 amended witness: the four conjuncts instantiated — a failing format
check, a failing group-aggregate check, a failing duplicate check and a
failing missing-values check on concrete frames. -/
theorem C4_fail_detail_and_filename_witness :
    (∃ base mask,
      check_col_format ⟨["id"], [[some "A1"], [some "B1"]]⟩ "id" "^A\\d$" scenarioMatch
          none "T" none true true =
        ([emitErr true (make_log_msg (some "T") (some "FAIL")
            (some (base ++ " " ++ toString (([some "A1", some "B1"] : List (Option String)).countP
              (fun c => !(scenarioMatch (cellStr c)))) ++ " violations")) none "::"),
          Event.sampled (make_log_msg (some "T") (some "FAIL")
            (some (base ++ " " ++ toString (([some "A1", some "B1"] : List (Option String)).countP
              (fun c => !(scenarioMatch (cellStr c)))) ++ " violations")) none " ") mask],
         Except.ok (some false)))
    ∧ (∃ t base mask,
      check_groupby_agg ⟨["g", "v"], [[some "1", some "10"], [some "1", some "20"],
            [some "2", some "5"]]⟩ ["g"] "v" nuniqueLeOne true false (fun _ _ => false)
          "infer" (some "<lambda>") pyBoolRepr none none none true true =
        ([emitErr true (make_log_msg (some t) (some "FAIL")
            (some (base ++ " " ++ toString ((([false, true] : List Bool).filter
              (fun b => !b)).length) ++ " violations")) none "::"),
          Event.sampled (make_log_msg (some t) (some "FAIL")
            (some (base ++ " " ++ toString ((([false, true] : List Bool).filter
              (fun b => !b)).length) ++ " violations")) none " ") mask],
         Except.ok (some false)))
    ∧ (∃ base,
      check_no_duplicate
          ⟨["a", "b"], [[some "1", some "2"], [some "1", some "2"], [some "3", some "4"]]⟩
          (some ["a", "b"]) none "check_no_duplicate" none true true =
        ([emitErr true (make_log_msg (some "check_no_duplicate") (some "FAIL")
            (some (base ++ " " ++ toString ((([true, true, false] : List Bool).filter id).length)
              ++ " violations")) none "::"),
          Event.sampled (make_log_msg (some "check_no_duplicate") (some "FAIL")
            (some (base ++ " " ++ toString ((([true, true, false] : List Bool).filter id).length)
              ++ " violations")) none " ") [true, true, false]],
         Except.ok none))
    ∧ (∃ d mask,
      d = pyOr none ("Missing values found in columns "
        ++ pyListRepr ((((resolveCols ⟨["a"], [[none]]⟩ none).zip
              (([0] : List Nat).map (fun i => ([[none]] : List (List (Option String))).all
                (fun r => (r.getD i none).isSome)))).filter
              (fun p => !p.2)).map Prod.fst))
      ∧ check_missing_values ⟨["a"], [[none]]⟩ none none "check_missing_values" none true true =
        ((if true then
            [Event.error (make_log_msg (some "check_missing_values") (some "FAIL") (some d)
              none "::")]
          else []) ++
          [Event.sampled (make_log_msg (some "check_missing_values") (some "FAIL") (some d)
            none " ") mask],
         Except.ok (some false))) :=
  ⟨C4_fail_detail_and_filename.1 ⟨["id"], [[some "A1"], [some "B1"]]⟩ "id" "^A\\d$" scenarioMatch
      none "T" none true [some "A1", some "B1"] rfl (by decide),
   C4_fail_detail_and_filename.2.1 ⟨["g", "v"], [[some "1", some "10"], [some "1", some "20"],
        [some "2", some "5"]]⟩ ["g"] "v" nuniqueLeOne true false (fun _ _ => false)
      "infer" (some "<lambda>") pyBoolRepr none none none true
      [([some "1"], false), ([some "2"], true)] [false, true] (by decide) rfl rfl rfl,
   C4_fail_detail_and_filename.2.2.1
      ⟨["a", "b"], [[some "1", some "2"], [some "1", some "2"], [some "3", some "4"]]⟩
      (some ["a", "b"]) none "check_no_duplicate" none true [true, true, false] rfl rfl,
   C4_fail_detail_and_filename.2.2.2 ⟨["a"], [[none]]⟩ none none "check_missing_values" none
      true [0] rfl (by decide)⟩

/-- C8 counterexample: with no logging sink and a failing frame,
`check_missing_values` emits nothing at all — the FAIL branch of the source
reads `logger.error(msg) if logger else None`, so the verdict message is
dropped rather than printed, contradicting the claimed print fallback. -/
theorem C8_counterexample_missing_fail_silent :
    check_missing_values ⟨["a"], [[none]]⟩ none none "check_missing_values" none false false
      = ([], Except.ok (some false)) := rfl

/-- C8 amended: with an absent logging sink every verdict message is printed
to standard output — PASS messages of all four checks and the FAIL messages
of `check_col_format`, `check_groupby_agg` and `check_no_duplicate` — except
the FAIL path of `check_missing_values`, which emits no message whatsoever
(its only events, if any, are sampler invocations) while still returning the
false verdict. -/
theorem C8_print_fallback_except_missing_fail :
    (∀ (df : DataFrame) (col rxRepr : String) (rxMatch : String → Bool)
        (df_desc : Option String) (title : String) (d0 : Option String) (sampler : Bool)
        (cells : List (Option String)),
      df.getCol col = Except.ok cells →
      (cells.map (fun c => rxMatch (cellStr c))).all id = true →
      check_col_format df col rxRepr rxMatch df_desc title d0 false sampler =
        ([Event.printed (make_log_msg (some title) (some "PASS")
            (some (pyOr d0 ("Column " ++ col ++ " vs. pattern " ++ rxRepr))) df_desc "::")],
         Except.ok (some true)))
    ∧ (∀ (df : DataFrame) (col rxRepr : String) (rxMatch : String → Bool)
          (df_desc : Option String) (title : String) (d0 : Option String) (sampler : Bool)
          (cells : List (Option String)),
        df.getCol col = Except.ok cells →
        (cells.map (fun c => rxMatch (cellStr c))).all id = false →
        ∃ m fn mask,
          check_col_format df col rxRepr rxMatch df_desc title d0 false sampler =
            ([Event.printed m] ++ (if sampler then [Event.sampled fn mask] else []),
             Except.ok (some false)))
    ∧ (∀ (df : DataFrame) (cols0 : Option (List String)) (df_desc : Option String)
          (title : String) (d0 : Option String) (sampler : Bool) (idxs : List Nat),
        df.colIdxs (resolveCols df cols0) = Except.ok idxs →
        (idxs.map (fun i => df.rows.all (fun r => (r.getD i none).isSome))).all id = true →
        check_missing_values df cols0 df_desc title d0 false sampler =
          ([Event.printed (make_log_msg (some title) (some "PASS")
              (some (pyOr d0 ("No missing values in " ++ pyListRepr (resolveCols df cols0))))
              df_desc "::")],
           Except.ok (some true)))
    ∧ (∀ (df : DataFrame) (cols0 : Option (List String)) (df_desc : Option String)
          (title : String) (d0 : Option String) (sampler : Bool) (idxs : List Nat),
        df.colIdxs (resolveCols df cols0) = Except.ok idxs →
        (idxs.map (fun i => df.rows.all (fun r => (r.getD i none).isSome))).all id = false →
        (∀ e ∈ (check_missing_values df cols0 df_desc title d0 false sampler).1,
            ∃ fn mask, e = Event.sampled fn mask)
        ∧ (check_missing_values df cols0 df_desc title d0 false sampler).2
            = Except.ok (some false))
    ∧ (∀ {α : Type} [BEq α] (df : DataFrame) (groupBy : List String) (check_col : String)
          (agg_func : List (Option String) → α) (desired : α) (almost : Bool)
          (isClose : α → α → Bool) (name : String) (dunder : Option String)
          (valRepr : α → String) (df_desc title0 d0 : Option String) (sampler : Bool)
          (pairs : List (List (Option String) × α)) (okl : List Bool),
        ¬ check_col = "" →
        groupbyAgg df groupBy check_col agg_func = Except.ok pairs →
        (if almost then pairs.map (fun p => isClose p.2 desired)
          else pairs.map (fun p => p.2 == desired)) = okl →
        okl.all id = true →
        check_groupby_agg df groupBy check_col agg_func desired almost isClose name dunder
            valRepr df_desc title0 d0 false sampler =
          ([Event.printed (make_log_msg (some (pyOr title0 "Group Aggregate Check")) (some "PASS")
              (some (pyOr d0 (gbAggDetail check_col groupBy (resolved_agg_func_name name dunder)
                (valRepr desired)))) df_desc "::")],
           Except.ok (some true)))
    ∧ (∀ {α : Type} [BEq α] (df : DataFrame) (groupBy : List String) (check_col : String)
          (agg_func : List (Option String) → α) (desired : α) (almost : Bool)
          (isClose : α → α → Bool) (name : String) (dunder : Option String)
          (valRepr : α → String) (df_desc title0 d0 : Option String) (sampler : Bool)
          (pairs : List (List (Option String) × α)) (okl : List Bool),
        ¬ check_col = "" →
        groupbyAgg df groupBy check_col agg_func = Except.ok pairs →
        (if almost then pairs.map (fun p => isClose p.2 desired)
          else pairs.map (fun p => p.2 == desired)) = okl →
        okl.all id = false →
        ∃ m fn mask,
          check_groupby_agg df groupBy check_col agg_func desired almost isClose name dunder
              valRepr df_desc title0 d0 false sampler =
            ([Event.printed m] ++ (if sampler then [Event.sampled fn mask] else []),
             Except.ok (some false)))
    ∧ (∀ (df : DataFrame) (cols : Option (List String)) (df_desc : Option String)
          (title : String) (d0 : Option String) (sampler : Bool) (dup : List Bool),
        dupMask df cols = Except.ok dup →
        dup.any id = false →
        check_no_duplicate df cols df_desc title d0 false sampler =
          ([Event.printed (make_log_msg (some title) (some "PASS")
              (some ("No duplicate in combinations of " ++ optColsRepr cols)) df_desc "::")],
           Except.ok (some true)))
    ∧ (∀ (df : DataFrame) (cols : Option (List String)) (df_desc : Option String)
          (title : String) (d0 : Option String) (sampler : Bool) (dup : List Bool),
        dupMask df cols = Except.ok dup →
        dup.any id = true →
        ∃ m fn,
          check_no_duplicate df cols df_desc title d0 false sampler =
            ([Event.printed m] ++ (if sampler then [Event.sampled fn dup] else []),
             Except.ok none)) := by
  refine ⟨?_, ?_, ?_, ?_, ?_, ?_, ?_, ?_⟩
  · intro df col rxRepr rxMatch df_desc title d0 sampler cells hc hall
    exact check_col_format_pass_eq df col rxRepr rxMatch df_desc title d0 false sampler cells hc hall
  · intro df col rxRepr rxMatch df_desc title d0 sampler cells hc hall
    exact ⟨_, _, _,
      check_col_format_fail_eq df col rxRepr rxMatch df_desc title d0 false sampler cells hc hall⟩
  · intro df cols0 df_desc title d0 sampler idxs hc hall
    exact check_missing_values_pass_eq df cols0 df_desc title d0 false sampler idxs hc hall
  · intro df cols0 df_desc title d0 sampler idxs hc hall
    rw [check_missing_values_fail_eq df cols0 df_desc title d0 false sampler idxs hc hall]
    refine ⟨?_, rfl⟩
    intro e he
    simp only [if_neg Bool.false_ne_true] at he
    by_cases hs : sampler = true
    · rw [if_pos hs] at he
      simp at he
      exact ⟨_, _, he⟩
    · rw [if_neg hs] at he
      simp at he
  · intro α _ df groupBy check_col agg_func desired almost isClose name dunder valRepr
      df_desc title0 d0 sampler pairs okl hcc hg hok hall
    exact check_groupby_agg_pass_eq df groupBy check_col agg_func desired almost isClose name
      dunder valRepr df_desc title0 d0 false sampler pairs okl hcc hg hok hall
  · intro α _ df groupBy check_col agg_func desired almost isClose name dunder valRepr
      df_desc title0 d0 sampler pairs okl hcc hg hok hall
    exact ⟨_, _, _, check_groupby_agg_fail_eq df groupBy check_col agg_func desired almost
      isClose name dunder valRepr df_desc title0 d0 false sampler pairs okl hcc hg hok hall⟩
  · intro df cols df_desc title d0 sampler dup hd hany
    exact check_no_duplicate_pass_eq df cols df_desc title d0 false sampler dup hd hany
  · intro df cols df_desc title d0 sampler dup hd hany
    exact ⟨_, _, check_no_duplicate_fail_eq df cols df_desc title d0 false sampler dup hd hany⟩

/-- C8 amended witness: all eight conjuncts instantiated on concrete frames
with the logging sink absent. -/
theorem C8_print_fallback_except_missing_fail_witness :
    (check_col_format ⟨["id"], [[some "A1"]]⟩ "id" "^A\\d$" scenarioMatch none "T" none
        false false =
      ([Event.printed (make_log_msg (some "T") (some "PASS")
          (some (pyOr none ("Column " ++ "id" ++ " vs. pattern " ++ "^A\\d$"))) none "::")],
       Except.ok (some true)))
    ∧ (∃ m fn mask,
        check_col_format ⟨["id"], [[some "B1"]]⟩ "id" "^A\\d$" scenarioMatch none "T" none
            false true =
          ([Event.printed m] ++ (if true then [Event.sampled fn mask] else []),
           Except.ok (some false)))
    ∧ (check_missing_values ⟨["a"], [[some "1"]]⟩ none none "M" none false false =
        ([Event.printed (make_log_msg (some "M") (some "PASS")
            (some (pyOr none ("No missing values in "
              ++ pyListRepr (resolveCols ⟨["a"], [[some "1"]]⟩ none)))) none "::")],
         Except.ok (some true)))
    ∧ ((∀ e ∈ (check_missing_values ⟨["a"], [[none]]⟩ none none "M" none false true).1,
          ∃ fn mask, e = Event.sampled fn mask)
        ∧ (check_missing_values ⟨["a"], [[none]]⟩ none none "M" none false true).2
            = Except.ok (some false))
    ∧ (check_groupby_agg ⟨["g", "v"], [[some "1", some "10"], [some "1", some "10"],
            [some "2", some "5"]]⟩ ["g"] "v" nuniqueLeOne true false (fun _ _ => false)
          "infer" (some "<lambda>") pyBoolRepr none none none false false =
        ([Event.printed (make_log_msg (some (pyOr none "Group Aggregate Check")) (some "PASS")
            (some (pyOr none (gbAggDetail "v" ["g"]
              (resolved_agg_func_name "infer" (some "<lambda>")) (pyBoolRepr true)))) none "::")],
         Except.ok (some true)))
    ∧ (∃ m fn mask,
        check_groupby_agg ⟨["g", "v"], [[some "1", some "10"], [some "1", some "20"],
              [some "2", some "5"]]⟩ ["g"] "v" nuniqueLeOne true false (fun _ _ => false)
            "infer" (some "<lambda>") pyBoolRepr none none none false true =
          ([Event.printed m] ++ (if true then [Event.sampled fn mask] else []),
           Except.ok (some false)))
    ∧ (check_no_duplicate ⟨["a", "b"], [[some "1", some "2"], [some "3", some "4"]]⟩
          (some ["a", "b"]) none "N" none false false =
        ([Event.printed (make_log_msg (some "N") (some "PASS")
            (some ("No duplicate in combinations of " ++ optColsRepr (some ["a", "b"])))
            none "::")],
         Except.ok (some true)))
    ∧ (∃ m fn,
        check_no_duplicate
            ⟨["a", "b"], [[some "1", some "2"], [some "1", some "2"], [some "3", some "4"]]⟩
            (some ["a", "b"]) none "N" none false true =
          ([Event.printed m] ++ (if true then [Event.sampled fn [true, true, false]] else []),
           Except.ok none)) :=
  ⟨C8_print_fallback_except_missing_fail.1 ⟨["id"], [[some "A1"]]⟩ "id" "^A\\d$" scenarioMatch
      none "T" none false [some "A1"] rfl (by decide),
   C8_print_fallback_except_missing_fail.2.1 ⟨["id"], [[some "B1"]]⟩ "id" "^A\\d$" scenarioMatch
      none "T" none true [some "B1"] rfl (by decide),
   C8_print_fallback_except_missing_fail.2.2.1 ⟨["a"], [[some "1"]]⟩ none none "M" none false
      [0] rfl (by decide),
   C8_print_fallback_except_missing_fail.2.2.2.1 ⟨["a"], [[none]]⟩ none none "M" none true
      [0] rfl (by decide),
   C8_print_fallback_except_missing_fail.2.2.2.2.1
      ⟨["g", "v"], [[some "1", some "10"], [some "1", some "10"], [some "2", some "5"]]⟩
      ["g"] "v" nuniqueLeOne true false (fun _ _ => false) "infer" (some "<lambda>") pyBoolRepr
      none none none false [([some "1"], true), ([some "2"], true)] [true, true]
      (by decide) rfl rfl rfl,
   C8_print_fallback_except_missing_fail.2.2.2.2.2.1
      ⟨["g", "v"], [[some "1", some "10"], [some "1", some "20"], [some "2", some "5"]]⟩
      ["g"] "v" nuniqueLeOne true false (fun _ _ => false) "infer" (some "<lambda>") pyBoolRepr
      none none none true [([some "1"], false), ([some "2"], true)] [false, true]
      (by decide) rfl rfl rfl,
   C8_print_fallback_except_missing_fail.2.2.2.2.2.2.1
      ⟨["a", "b"], [[some "1", some "2"], [some "3", some "4"]]⟩
      (some ["a", "b"]) none "N" none false [false, false] rfl rfl,
   C8_print_fallback_except_missing_fail.2.2.2.2.2.2.2
      ⟨["a", "b"], [[some "1", some "2"], [some "1", some "2"], [some "3", some "4"]]⟩
      (some ["a", "b"]) none "N" none true [true, true, false] rfl rfl⟩
